import Mathlib

/-!
# KDDockWidgets: size bounding and the main window's contract

A shallow embedding of

* `Layouting::Widget::boundedMaxSize` (`src/private/multisplitter/Widget.cpp`),
* `KDDockWidgets::MainWindowBase` (`src/MainWindowBase.cpp`, `src/MainWindowBase.h`),
* `KDDockWidgets::FocusScope` (`src/FocusScope.cpp`).

C++ `int` components are `Int` (the code only compares them and takes minima and
maxima, so no overflow can occur), `QString` is `String`, `QStringList` is
`List String`, `QFlags` values are `Nat` bit sets.  Objects the main window only
talks to (the drop area, the dock registry, the warning stream, the signal
`uniqueNameChanged`) are represented by the ordered record of the calls made on
them.
-/

namespace KDDockWidgets

/-! ## QSize -/

/-- Qt's `QSize`: a width and a height, both C++ `int`. -/
@[ext]
structure QSize where
  width : Int
  height : Int
deriving DecidableEq, Repr

namespace QSize

/-- Qt's `QSize::boundedTo`: the componentwise minimum of the two sizes. -/
def boundedTo (s otherSize : QSize) : QSize :=
  ⟨min s.width otherSize.width, min s.height otherSize.height⟩

/-- Qt's `QSize::expandedTo`: the componentwise maximum of the two sizes. -/
def expandedTo (s otherSize : QSize) : QSize :=
  ⟨max s.width otherSize.width, max s.height otherSize.height⟩

/-- Qt's `QSize::setWidth`. -/
def setWidth (s : QSize) (w : Int) : QSize := { s with width := w }

/-- Qt's `QSize::setHeight`. -/
def setHeight (s : QSize) (h : Int) : QSize := { s with height := h }

end QSize

end KDDockWidgets

namespace Layouting

open KDDockWidgets

/-- `Widget::boundedMaxSize(QSize min, QSize max)` of `Widget.cpp`, lines 165-179.
The two macros `KDDOCKWIDGETS_MAX_WIDTH` and `KDDOCKWIDGETS_MAX_HEIGHT` come from the
included header `Item_p.h`; their values are not fixed here, they are parameters. -/
def Widget.boundedMaxSize (KDDOCKWIDGETS_MAX_WIDTH KDDOCKWIDGETS_MAX_HEIGHT : Int)
    (min max : QSize) : QSize :=
  -- Max should be bigger than min, but not bigger than the hardcoded max
  let max := max.boundedTo ⟨KDDOCKWIDGETS_MAX_WIDTH, KDDOCKWIDGETS_MAX_HEIGHT⟩
  -- 0 interpreted as not having max
  let max := if max.width ≤ 0 then max.setWidth KDDOCKWIDGETS_MAX_WIDTH else max
  let max := if max.height ≤ 0 then max.setHeight KDDOCKWIDGETS_MAX_HEIGHT else max
  max.expandedTo min

end Layouting

namespace KDDockWidgets

/-! ## The objects a main window talks to -/

/-- Qt's `QRect`, as `LayoutSaver::MainWindow::geometry` stores it. -/
structure QRect where
  x : Int
  y : Int
  width : Int
  height : Int
deriving DecidableEq, Repr

/-- The test `flags & flag` of a `QFlags` value used as a condition: some bit of `flag`
is set in `flags`. -/
def flagsAnd (flags flag : Nat) : Bool := (flags &&& flag) != 0

/-- The enum `KDDockWidgets::Location`, by its integer value; the main window only passes
it on. -/
abbrev Location := Int

/-- The enum `KDDockWidgets::AddingOption`, by its integer value; the main window only
passes it on. -/
abbrev AddingOption := Int

/-- What the main window reads through a `DockWidgetBase *`: which object it is, its
`options()` and its `affinities()`. -/
structure DockWidgetBase where
  id : Nat
  options : Nat
  affinities : List String
deriving DecidableEq, Repr

/-- A call that changes the drop area (`dropArea()`), with its arguments. `L` is the type
`LayoutSaver::MultiSplitterLayout`, declared in `LayoutSaver_p.h` and only passed on. -/
inductive DropAreaCall (L : Type) where
  /-- `dropArea()->m_centralFrame->addWidget(widget)` -/
  | centralFrameAddWidget (widget : DockWidgetBase)
  /-- `dropArea()->addDockWidget(dw, location, relativeTo, option)` -/
  | addDockWidget (dw : DockWidgetBase) (location : Location)
      (relativeTo : Option DockWidgetBase) (option : AddingOption)
  /-- `dropArea()->layoutEqually()` -/
  | layoutEqually
  /-- `dropArea()->layoutParentContainerEqually(dockWidget)` -/
  | layoutParentContainerEqually (dockWidget : DockWidgetBase)
  /-- `dropArea()->deserialize(layout)` -/
  | deserialize (layout : L)
deriving DecidableEq, Repr

/-- What the main window sends out besides its calls on the drop area. -/
inductive Emitted where
  /-- a line on `qCDebug(addwidget)` -/
  | qCDebug
  /-- a line on `qWarning()` -/
  | qWarning
  /-- `Q_EMIT uniqueNameChanged()` -/
  | uniqueNameChanged
  /-- `DockRegistry::self()->registerMainWindow(this)` -/
  | registerMainWindow
deriving DecidableEq, Repr

/-- The parts of the program that `MainWindowBase.cpp` uses and that are declared or
defined in other files (`KDDockWidgets.h`, `DockWidgetBase.h`, `DockRegistry.cpp`, the
drop area): two enumerators, `DockRegistry::affinitiesMatch`, and what the drop area
answers (given the calls it has received so far) to `deserialize` and `serialize`. They
are parameters of the embedding. -/
structure Externals (L : Type) where
  MainWindowOption_HasCentralFrame : Nat
  Option_NotDockable : Nat
  affinitiesMatch : List String → List String → Bool
  dropAreaDeserialize : List (DropAreaCall L) → L → Bool
  dropAreaSerialize : List (DropAreaCall L) → L

/-- A sample of the external parts, for evaluating the functions on concrete inputs: the
central-frame flag is bit 0, the not-dockable flag is bit 1, two affinity lists match when
both are empty or they share a name, and the drop area accepts every layout. -/
def Externals.sample : Externals Unit where
  MainWindowOption_HasCentralFrame := 1
  Option_NotDockable := 2
  affinitiesMatch := fun a b => (a.isEmpty && b.isEmpty) || a.any (fun n => b.contains n)
  dropAreaDeserialize := fun _ _ => true
  dropAreaSerialize := fun _ => ()

/-- The record `LayoutSaver::MainWindow`, with the fields `MainWindowBase::serialize`
fills in. -/
structure LayoutSaver.MainWindow (L : Type) where
  options : Nat
  geometry : QRect
  isVisible : Bool
  uniqueName : String
  screenIndex : Int
  screenSize : QSize
  multiSplitterLayout : L
  affinities : List String
deriving DecidableEq, Repr

/-- What `serialize` reads from the widget and the screen it is on:
`topLevel()->geometry()`, `isVisible()`, `screenNumberForWidget(this)` and
`screenSizeForWidget(this)`. -/
structure WidgetInfo where
  geometry : QRect
  isVisible : Bool
  screenIndex : Int
  screenSize : QSize
deriving DecidableEq, Repr

/-! ## MainWindowBase -/

/-- A main window: the three members of `MainWindowBase::Private` (`name`, `affinities`,
`m_options`) and, in order, the calls it has made on its drop area and what it has sent
out. The getter `MainWindowBase::affinities()` returns the member `affinities` as it is, so
the field stands for it. -/
structure MainWindowBase (L : Type) where
  name : String
  affinities : List String
  m_options : Nat
  dropAreaCalls : List (DropAreaCall L)
  emitted : List Emitted
deriving DecidableEq, Repr

namespace MainWindowBase

variable {L : Type}

/-- Appends one record to what the window has sent out. -/
def emit (s : MainWindowBase L) (e : Emitted) : MainWindowBase L :=
  { s with emitted := s.emitted ++ [e] }

/-- Appends one call to the calls made on the drop area. -/
def callDropArea (s : MainWindowBase L) (c : DropAreaCall L) : MainWindowBase L :=
  { s with dropAreaCalls := s.dropAreaCalls ++ [c] }

/-- `MainWindowBase::Private::supportsCentralFrame`. -/
def supportsCentralFrame (env : Externals L) (s : MainWindowBase L) : Bool :=
  flagsAnd s.m_options env.MainWindowOption_HasCentralFrame

/-- `MainWindowBase::uniqueName`. -/
def uniqueName (s : MainWindowBase L) : String := s.name

/-- `MainWindowBase::options`. -/
def options (s : MainWindowBase L) : Nat := s.m_options

/-- `MainWindowBase::setUniqueName`. -/
def setUniqueName (s : MainWindowBase L) (uniqueName : String) : MainWindowBase L :=
  if uniqueName = "" then s
  else if s.name = "" then
    (({ s with name := uniqueName }).emit .uniqueNameChanged).emit .registerMainWindow
  else s.emit .qWarning

/-- The state `new Private(options)` starts from: no name, no affinities. -/
def initPrivate (options : Nat) : MainWindowBase L :=
  { name := "", affinities := [], m_options := options, dropAreaCalls := [], emitted := [] }

/-- The constructor `MainWindowBase::MainWindowBase(thisWidget, uniqueName, options)`. -/
def create (uniqueName : String) (options : Nat) : MainWindowBase L :=
  setUniqueName (initPrivate options) uniqueName

/-- `MainWindowBase::addDockWidgetAsTab`. -/
def addDockWidgetAsTab (env : Externals L) (s : MainWindowBase L) (widget : DockWidgetBase) :
    MainWindowBase L :=
  let s := s.emit .qCDebug
  if !env.affinitiesMatch s.affinities widget.affinities then s.emit .qWarning
  else if flagsAnd widget.options env.Option_NotDockable then s.emit .qWarning
  else if supportsCentralFrame env s then s.callDropArea (.centralFrameAddWidget widget)
  else s.emit .qWarning

/-- `MainWindowBase::addDockWidget`. -/
def addDockWidget (env : Externals L) (s : MainWindowBase L) (dw : DockWidgetBase)
    (location : Location) (relativeTo : Option DockWidgetBase) (option : AddingOption) :
    MainWindowBase L :=
  if flagsAnd dw.options env.Option_NotDockable then s.emit .qWarning
  else s.callDropArea (.addDockWidget dw location relativeTo option)

/-- `MainWindowBase::setAffinities`. `removeAll(QString())` drops every empty string. -/
def setAffinities (s : MainWindowBase L) (affinityNames : List String) : MainWindowBase L :=
  let affinities := affinityNames.filter (fun n => n != "")
  if s.affinities = affinities then s
  else if !s.affinities.isEmpty then s.emit .qWarning
  else { s with affinities := affinities }

/-- `MainWindowBase::layoutEqually`. -/
def layoutEqually (s : MainWindowBase L) : MainWindowBase L :=
  s.callDropArea .layoutEqually

/-- `MainWindowBase::layoutParentContainerEqually`. -/
def layoutParentContainerEqually (s : MainWindowBase L) (dockWidget : DockWidgetBase) :
    MainWindowBase L :=
  s.callDropArea (.layoutParentContainerEqually dockWidget)

/-- `MainWindowBase::deserialize`: the returned flag and the window afterwards. -/
def deserialize (env : Externals L) (s : MainWindowBase L)
    (mw : LayoutSaver.MainWindow L) : Bool × MainWindowBase L :=
  if mw.options ≠ s.options then (false, s.emit .qWarning)
  else
    let s := if s.affinities ≠ mw.affinities then
        { s.emit .qWarning with affinities := mw.affinities }
      else s
    (env.dropAreaDeserialize s.dropAreaCalls mw.multiSplitterLayout,
      s.callDropArea (.deserialize mw.multiSplitterLayout))

/-- `MainWindowBase::serialize`. -/
def serialize (env : Externals L) (info : WidgetInfo) (s : MainWindowBase L) :
    LayoutSaver.MainWindow L :=
  { options := s.options
    geometry := info.geometry
    isVisible := info.isVisible
    uniqueName := s.uniqueName
    screenIndex := info.screenIndex
    screenSize := info.screenSize
    multiSplitterLayout := env.dropAreaSerialize s.dropAreaCalls
    affinities := s.affinities }

/-- One call of a member function that may change the window. -/
inductive Op (L : Type) where
  | addDockWidgetAsTab (widget : DockWidgetBase)
  | addDockWidget (dw : DockWidgetBase) (location : Location)
      (relativeTo : Option DockWidgetBase) (option : AddingOption)
  | setAffinities (affinityNames : List String)
  | layoutEqually
  | layoutParentContainerEqually (dockWidget : DockWidgetBase)
  | setUniqueName (uniqueName : String)
  | deserialize (mw : LayoutSaver.MainWindow L)

/-- The window after one call. -/
def step (env : Externals L) (s : MainWindowBase L) : Op L → MainWindowBase L
  | .addDockWidgetAsTab widget => addDockWidgetAsTab env s widget
  | .addDockWidget dw location relativeTo option =>
      addDockWidget env s dw location relativeTo option
  | .setAffinities affinityNames => setAffinities s affinityNames
  | .layoutEqually => layoutEqually s
  | .layoutParentContainerEqually dockWidget => layoutParentContainerEqually s dockWidget
  | .setUniqueName uniqueName => setUniqueName s uniqueName
  | .deserialize mw => (deserialize env s mw).2

/-- The window after a sequence of calls, first to last. -/
def run (env : Externals L) (s : MainWindowBase L) (ops : List (Op L)) :
    MainWindowBase L :=
  ops.foldl (step env) s

end MainWindowBase

end KDDockWidgets

namespace KDDockWidgets

/-! ## FocusScope -/

/-- What `FocusScope.cpp` reads through a `WidgetType *`: which object it is, whether
`qobject_cast<TitleBar*>` succeeds on it, and the objects that repeated
`KDDockWidgets::Private::parentWidget` yields from it, nearest first, up to the null
parent. -/
structure WidgetType where
  id : Nat
  isTitleBar : Bool
  parents : List Nat
deriving DecidableEq, Repr

/-- A non-null `QObject *`: either a `WidgetType` or an object of another class. -/
inductive QObject where
  | widget (w : WidgetType)
  | other (id : Nat)
deriving DecidableEq, Repr

/-- `qobject_cast<WidgetType*>(obj)` on a possibly null `QObject *obj`. -/
def qobject_cast_WidgetType : Option QObject → Option WidgetType
  | some (.widget w) => some w
  | some (.other _) => none
  | none => none

/-- The two signals of a focus scope. -/
inductive FocusSignal where
  /-- `Q_EMIT q->isFocusedChanged()` -/
  | isFocusedChanged
  /-- `Q_EMIT q->focusedWidgetChanged()` -/
  | focusedWidgetChanged
deriving DecidableEq, Repr

/-- A focus scope: the members of `FocusScope::Private` (`m_lastFocusedInScope` holds the
identity of the widget it points to, or nothing when null) and, in order, the signals
emitted so far. Slots connected to the signals are not run. -/
structure FocusScope where
  m_thisWidget : Nat
  m_isFocused : Bool
  m_inCtor : Bool
  m_lastFocusedInScope : Option Nat
  emitted : List FocusSignal
deriving DecidableEq, Repr

namespace FocusScope

/-- `FocusScope::isFocused`. -/
def isFocused (s : FocusScope) : Bool := s.m_isFocused

/-- `FocusScope::focusedWidget`. -/
def focusedWidget (s : FocusScope) : Option Nat := s.m_lastFocusedInScope

/-- The loop of `FocusScope::Private::isInFocusScope` over `p`, `parentWidget(p)`, ...:
the empty chain is the null `p`. -/
def isInFocusScopeLoop (m_thisWidget : Nat) : List Nat → Bool
  | [] => false
  | p :: parents => if p = m_thisWidget then true else isInFocusScopeLoop m_thisWidget parents

/-- `FocusScope::Private::isInFocusScope`. -/
def isInFocusScope (s : FocusScope) (widget : WidgetType) : Bool :=
  isInFocusScopeLoop s.m_thisWidget (widget.id :: widget.parents)

/-- A call `q->isFocusedChanged()` or `q->focusedWidgetChanged()`. `FocusScope` cannot be a
`QObject` (the comment above `FocusScope::Private`), so the two signals are virtual
members that a derived class implements; called while the `FocusScope` constructor runs
(`m_inCtor`), such a member is still pure virtual (the comment in `setIsFocused`: "Hack so
we don't call pure-virtual") and the call does not return: that is `none`. Once the
constructor is over the signal is recorded. -/
def emitSignal (s : FocusScope) (signal : FocusSignal) : Option FocusScope :=
  if s.m_inCtor then none else some { s with emitted := s.emitted ++ [signal] }

/-- `FocusScope::Private::setIsFocused`. -/
def setIsFocused (s : FocusScope) (is : Bool) : Option FocusScope :=
  if is ≠ s.m_isFocused then
    let s := { s with m_isFocused := is }
    if !s.m_inCtor then emitSignal s .isFocusedChanged else some s
  else some s

/-- `FocusScope::Private::onFocusObjectChanged`; `none` when the step does not return.
The call of `focusedWidgetChanged` has no test of `m_inCtor` in front of it. -/
def onFocusObjectChanged (s : FocusScope) (obj : Option QObject) : Option FocusScope :=
  match qobject_cast_WidgetType obj with
  | none => some s
  | some widget =>
    let is := isInFocusScope s widget
    if is && s.m_lastFocusedInScope != some widget.id && !widget.isTitleBar then
      (emitSignal { s with m_lastFocusedInScope := some widget.id } .focusedWidgetChanged).bind
        (fun s => setIsFocused s is)
    else setIsFocused s is

/-- The members as their initialisers in `FocusScope::Private` set them, before the
constructor's body runs. -/
def initPrivate (thisWidget : Nat) : FocusScope :=
  { m_thisWidget := thisWidget, m_isFocused := false, m_inCtor := true,
    m_lastFocusedInScope := none, emitted := [] }

/-- The constructor `FocusScope::Private::Private(qq, thisWidget)`; `focusObject` is what
`qApp->focusObject()` returns at that moment. `none` when the step it runs does not
return. -/
def create (thisWidget : Nat) (focusObject : Option QObject) : Option FocusScope :=
  (onFocusObjectChanged (initPrivate thisWidget) focusObject).map
    (fun s => { s with m_inCtor := false })

end FocusScope

end KDDockWidgets

/-! ## Theorems -/

namespace Layouting

open KDDockWidgets

/-- The width of `boundedMaxSize` written out: it only reads the two widths. -/
theorem Widget.boundedMaxSize_width (W H : Int) (mn mx : QSize) :
    (Widget.boundedMaxSize W H mn mx).width
      = max (if min mx.width W ≤ 0 then W else min mx.width W) mn.width := by
  unfold Widget.boundedMaxSize
  simp only [QSize.boundedTo, QSize.expandedTo, QSize.setWidth, QSize.setHeight]
  split_ifs <;> rfl

/-- The height of `boundedMaxSize` written out: it only reads the two heights. -/
theorem Widget.boundedMaxSize_height (W H : Int) (mn mx : QSize) :
    (Widget.boundedMaxSize W H mn mx).height
      = max (if min mx.height H ≤ 0 then H else min mx.height H) mn.height := by
  unfold Widget.boundedMaxSize
  simp only [QSize.boundedTo, QSize.expandedTo, QSize.setWidth, QSize.setHeight]
  split_ifs <;> rfl

/-- Claim C1: for every min size and every max size (and whatever the two hardcoded
maxima are), the size returned by `Widget::boundedMaxSize` is at least `min` in both
width and height. -/
theorem Widget.boundedMaxSize_ge_min (W H : Int) (mn mx : QSize) :
    mn.width ≤ (Widget.boundedMaxSize W H mn mx).width ∧
    mn.height ≤ (Widget.boundedMaxSize W H mn mx).height := by
  rw [Widget.boundedMaxSize_width, Widget.boundedMaxSize_height]
  exact ⟨le_max_right _ _, le_max_right _ _⟩

/-- Claim C2, as the code has it: in each component where `min` is not bigger than the
hardcoded maximum, the size returned by `Widget::boundedMaxSize` is not bigger than the
hardcoded maximum either, for every max size. -/
theorem Widget.boundedMaxSize_le_hardcoded (W H : Int) (mn mx : QSize) :
    (mn.width ≤ W → (Widget.boundedMaxSize W H mn mx).width ≤ W) ∧
    (mn.height ≤ H → (Widget.boundedMaxSize W H mn mx).height ≤ H) := by
  rw [Widget.boundedMaxSize_width, Widget.boundedMaxSize_height]
  constructor
  · intro h
    refine max_le ?_ h
    split_ifs
    · exact le_refl W
    · exact min_le_right _ _
  · intro h
    refine max_le ?_ h
    split_ifs
    · exact le_refl H
    · exact min_le_right _ _

/-- Claim C2 at a concrete input: minimum 10 x 20 and maximum 30000000 x 0 under the
hardcoded maximum 16777215 x 16777215 give 16777215 x 16777215. -/
theorem Widget.boundedMaxSize_le_hardcoded_witness :
    (Widget.boundedMaxSize 16777215 16777215 ⟨10, 20⟩ ⟨30000000, 0⟩).width ≤ 16777215 ∧
    (Widget.boundedMaxSize 16777215 16777215 ⟨10, 20⟩ ⟨30000000, 0⟩).height ≤ 16777215 :=
  ⟨(Widget.boundedMaxSize_le_hardcoded 16777215 16777215 ⟨10, 20⟩ ⟨30000000, 0⟩).1 (by decide),
   (Widget.boundedMaxSize_le_hardcoded 16777215 16777215 ⟨10, 20⟩ ⟨30000000, 0⟩).2 (by decide)⟩

/-- Claim C2 as stated fails: with the hardcoded maximum 16777215 x 16777215, the minimum
20000000 x 0 and the maximum 0 x 0, `Widget::boundedMaxSize` returns 20000000 x 16777215,
whose width is bigger than the hardcoded maximum width. -/
theorem Widget.boundedMaxSize_exceeds_hardcoded :
    Widget.boundedMaxSize 16777215 16777215 ⟨20000000, 0⟩ ⟨0, 0⟩ = ⟨20000000, 16777215⟩ ∧
    ¬ (Widget.boundedMaxSize 16777215 16777215 ⟨20000000, 0⟩ ⟨0, 0⟩).width ≤ 16777215 := by
  decide

/-- Claim C3: a max width that is zero or negative gives the same result as the hardcoded
maximum width in its place, a max height that is zero or negative the same result as the
hardcoded maximum height in its place, and the returned width depends on the two widths
only, the returned height on the two heights only. -/
theorem Widget.boundedMaxSize_no_maximum (W H : Int) (mn mx : QSize) :
    (mx.width ≤ 0 →
      Widget.boundedMaxSize W H mn mx = Widget.boundedMaxSize W H mn ⟨W, mx.height⟩) ∧
    (mx.height ≤ 0 →
      Widget.boundedMaxSize W H mn mx = Widget.boundedMaxSize W H mn ⟨mx.width, H⟩) ∧
    (∀ h₁ h₂ : Int, (Widget.boundedMaxSize W H ⟨mn.width, h₁⟩ ⟨mx.width, h₂⟩).width
      = (Widget.boundedMaxSize W H mn mx).width) ∧
    (∀ w₁ w₂ : Int, (Widget.boundedMaxSize W H ⟨w₁, mn.height⟩ ⟨w₂, mx.height⟩).height
      = (Widget.boundedMaxSize W H mn mx).height) := by
  refine ⟨fun h => ?_, fun h => ?_, fun _ _ => ?_, fun _ _ => ?_⟩
  · apply QSize.ext
    · rw [Widget.boundedMaxSize_width, Widget.boundedMaxSize_width]
      have h1 : min mx.width W ≤ 0 := le_trans (min_le_left _ _) h
      simp [h1]
    · rw [Widget.boundedMaxSize_height, Widget.boundedMaxSize_height]
  · apply QSize.ext
    · rw [Widget.boundedMaxSize_width, Widget.boundedMaxSize_width]
    · rw [Widget.boundedMaxSize_height, Widget.boundedMaxSize_height]
      have h1 : min mx.height H ≤ 0 := le_trans (min_le_left _ _) h
      simp [h1]
  · rw [Widget.boundedMaxSize_width, Widget.boundedMaxSize_width]
  · rw [Widget.boundedMaxSize_height, Widget.boundedMaxSize_height]

/-- Claim C3 at a concrete input: the maximum 0 x -5 is read as 16777215 x 16777215. -/
theorem Widget.boundedMaxSize_no_maximum_witness :
    Widget.boundedMaxSize 16777215 16777215 ⟨10, 20⟩ ⟨0, -5⟩
      = Widget.boundedMaxSize 16777215 16777215 ⟨10, 20⟩ ⟨16777215, -5⟩ ∧
    Widget.boundedMaxSize 16777215 16777215 ⟨10, 20⟩ ⟨0, -5⟩
      = Widget.boundedMaxSize 16777215 16777215 ⟨10, 20⟩ ⟨0, 16777215⟩ :=
  ⟨(Widget.boundedMaxSize_no_maximum 16777215 16777215 ⟨10, 20⟩ ⟨0, -5⟩).1 (by decide),
   (Widget.boundedMaxSize_no_maximum 16777215 16777215 ⟨10, 20⟩ ⟨0, -5⟩).2.1 (by decide)⟩

end Layouting

namespace KDDockWidgets

namespace MainWindowBase

variable {L : Type}

/-! ### What each member function leaves alone -/

@[simp] theorem emit_name (s : MainWindowBase L) (e : Emitted) : (s.emit e).name = s.name := rfl

@[simp] theorem emit_affinities (s : MainWindowBase L) (e : Emitted) :
    (s.emit e).affinities = s.affinities := rfl

@[simp] theorem emit_m_options (s : MainWindowBase L) (e : Emitted) :
    (s.emit e).m_options = s.m_options := rfl

@[simp] theorem emit_dropAreaCalls (s : MainWindowBase L) (e : Emitted) :
    (s.emit e).dropAreaCalls = s.dropAreaCalls := rfl

@[simp] theorem emit_emitted (s : MainWindowBase L) (e : Emitted) :
    (s.emit e).emitted = s.emitted ++ [e] := rfl

@[simp] theorem callDropArea_name (s : MainWindowBase L) (c : DropAreaCall L) :
    (s.callDropArea c).name = s.name := rfl

@[simp] theorem callDropArea_affinities (s : MainWindowBase L) (c : DropAreaCall L) :
    (s.callDropArea c).affinities = s.affinities := rfl

@[simp] theorem callDropArea_m_options (s : MainWindowBase L) (c : DropAreaCall L) :
    (s.callDropArea c).m_options = s.m_options := rfl

@[simp] theorem callDropArea_dropAreaCalls (s : MainWindowBase L) (c : DropAreaCall L) :
    (s.callDropArea c).dropAreaCalls = s.dropAreaCalls ++ [c] := rfl

@[simp] theorem callDropArea_emitted (s : MainWindowBase L) (c : DropAreaCall L) :
    (s.callDropArea c).emitted = s.emitted := rfl

/-- No call changes `m_options`. -/
theorem step_m_options (env : Externals L) (s : MainWindowBase L) (op : Op L) :
    (step env s op).m_options = s.m_options := by
  cases op <;>
    simp only [step, addDockWidgetAsTab, addDockWidget, setAffinities, layoutEqually,
      layoutParentContainerEqually, setUniqueName, deserialize] <;>
    (try split_ifs) <;> rfl

/-- No sequence of calls changes `m_options`. -/
theorem run_m_options (env : Externals L) (ops : List (Op L)) (s : MainWindowBase L) :
    (run env s ops).m_options = s.m_options := by
  induction ops generalizing s with
  | nil => rfl
  | cons op ops ih =>
    show (run env (step env s op) ops).m_options = s.m_options
    rw [ih, step_m_options]

/-- The constructor stores the options it is given. -/
theorem create_m_options (uniqueName : String) (options : Nat) :
    (create uniqueName options : MainWindowBase L).m_options = options := by
  simp only [create, setUniqueName, initPrivate]
  split_ifs <;> rfl

/-- A call leaves a name that is set as it is. -/
theorem step_name (env : Externals L) (s : MainWindowBase L) (op : Op L) (h : s.name ≠ "") :
    (step env s op).name = s.name := by
  cases op <;>
    simp only [step, addDockWidgetAsTab, addDockWidget, setAffinities, layoutEqually,
      layoutParentContainerEqually, setUniqueName, deserialize] <;>
    (try split_ifs) <;> rfl

/-- A sequence of calls leaves a name that is set as it is. -/
theorem run_name (env : Externals L) (ops : List (Op L)) (s : MainWindowBase L)
    (h : s.name ≠ "") : (run env s ops).name = s.name := by
  induction ops generalizing s with
  | nil => rfl
  | cons op ops ih =>
    show (run env (step env s op) ops).name = s.name
    have h1 := step_name env s op h
    rw [ih _ (by rw [h1]; exact h), h1]

/-- The drop-area calls after `addDockWidgetAsTab`, in every state. -/
theorem addDockWidgetAsTab_dropAreaCalls (env : Externals L) (s : MainWindowBase L)
    (widget : DockWidgetBase) :
    (addDockWidgetAsTab env s widget).dropAreaCalls =
      if env.affinitiesMatch s.affinities widget.affinities = true ∧
          flagsAnd widget.options env.Option_NotDockable = false ∧
          flagsAnd s.m_options env.MainWindowOption_HasCentralFrame = true
      then s.dropAreaCalls ++ [.centralFrameAddWidget widget] else s.dropAreaCalls := by
  simp only [addDockWidgetAsTab, supportsCentralFrame, emit_affinities, emit_m_options]
  split_ifs <;> simp_all

/-! ### setAffinities -/

/-- Keeping the strings that are not empty, with the test written as a proposition or
as `!=`. -/
theorem filter_ne_empty (l : List String) :
    l.filter (fun n => decide (n ≠ "")) = l.filter (fun n => n != "") := by
  congr 1
  funext n
  by_cases h : n = "" <;> simp [h]

/-- Claim C4: on a main window whose affinities are still empty, `setAffinities` makes
`affinities()` the given list with every empty string removed, the remaining names in
their order. -/
theorem setAffinities_of_empty (s : MainWindowBase L) (affinityNames : List String)
    (h : s.affinities = []) :
    (setAffinities s affinityNames).affinities = affinityNames.filter (fun n => n ≠ "") := by
  rw [filter_ne_empty]
  simp only [setAffinities, h]
  split_ifs with h1 h2
  · simpa [h] using h1
  · simp at h2
  · rfl

/-- Claim C4 on a freshly constructed main window: `["", "b", "", "c", "b"]` is stored as
`["b", "c", "b"]`. -/
theorem setAffinities_of_empty_witness :
    (setAffinities (create "main" 1 : MainWindowBase Unit) ["", "b", "", "c", "b"]).affinities
      = ["b", "c", "b"] :=
  setAffinities_of_empty (create "main" 1) ["", "b", "", "c", "b"] (by decide)

/-- Claim C5, as the code has it: when `affinities()` is not empty after
`setAffinities(a)` (the window had affinities before, or `a` holds a name that is not
empty), a later `setAffinities(b)` leaves `affinities()` as the first call left it. -/
theorem setAffinities_twice (s : MainWindowBase L) (a b : List String)
    (h : s.affinities ≠ [] ∨ ∃ n ∈ a, n ≠ "") :
    (setAffinities (setAffinities s a) b).affinities = (setAffinities s a).affinities := by
  have h1 : (setAffinities s a).affinities ≠ [] := by
    simp only [setAffinities]
    split_ifs with h2 h3
    · rcases h with h | ⟨n, hn, hne⟩
      · exact h
      · rw [h2]
        intro h4
        have : n ∈ a.filter (fun n => n != "") := by
          simp [List.mem_filter, hn, hne]
        rw [h4] at this
        simp at this
    · simpa using h3
    · rcases h with h | ⟨n, hn, hne⟩
      · simp [h] at h3
      · intro h4
        have : n ∈ a.filter (fun n => n != "") := by
          simp [List.mem_filter, hn, hne]
        simp only at h4
        rw [h4] at this
        simp at this
  generalize setAffinities s a = t at h1 ⊢
  simp only [setAffinities]
  split_ifs with h2 h3
  · rfl
  · rfl
  · simp at h3
    exact absurd h3 h1

/-- Claim C5 at a concrete input: after `setAffinities(["a"])` on a fresh window,
`setAffinities(["b"])` leaves the affinities as they are. -/
theorem setAffinities_twice_witness :
    (setAffinities (setAffinities (create "main" 1 : MainWindowBase Unit) ["a"]) ["b"]).affinities
      = (setAffinities (create "main" 1 : MainWindowBase Unit) ["a"]).affinities :=
  setAffinities_twice (create "main" 1) ["a"] ["b"] (Or.inr ⟨"a", by decide, by decide⟩)

/-- Claim C5 as stated fails: on a fresh main window, `setAffinities([])` leaves the
affinities empty and the later `setAffinities(["a"])` sets them to `["a"]`. -/
theorem second_setAffinities_takes_effect :
    (setAffinities (create "main" 1 : MainWindowBase Unit) []).affinities = [] ∧
    (setAffinities (setAffinities (create "main" 1 : MainWindowBase Unit) []) ["a"]).affinities
      = ["a"] ∧
    (setAffinities (setAffinities (create "main" 1 : MainWindowBase Unit) []) ["a"]).affinities
      ≠ (setAffinities (create "main" 1 : MainWindowBase Unit) []).affinities := by
  decide

/-- Claim C6: on a main window whose `affinities()` is not empty, `setAffinities(b)`
leaves `affinities()` unchanged: the window is left exactly as it is when `b` without its
empty strings is the current list, and otherwise the only change is one more warning. -/
theorem setAffinities_refuses (s : MainWindowBase L) (b : List String)
    (h : s.affinities ≠ []) :
    (setAffinities s b).affinities = s.affinities ∧
    (b.filter (fun n => n ≠ "") = s.affinities → setAffinities s b = s) ∧
    (b.filter (fun n => n ≠ "") ≠ s.affinities → setAffinities s b = s.emit .qWarning) := by
  rw [filter_ne_empty]
  simp only [setAffinities]
  refine ⟨?_, ?_, ?_⟩
  · split_ifs with h2 h3
    · rfl
    · rfl
    · simp at h3
      exact absurd h3 h
  · intro h1
    rw [if_pos h1.symm]
  · intro h1
    rw [if_neg (fun h2 => h1 h2.symm)]
    split_ifs with h3
    · rfl
    · simp at h3
      exact absurd h3 h

/-- Claim C6 at a concrete input: a window with affinities `["a"]` keeps them when asked
for `["b", ""]`. -/
theorem setAffinities_refuses_witness :
    (setAffinities (setAffinities (create "main" 1 : MainWindowBase Unit) ["a"])
      ["b", ""]).affinities = ["a"] :=
  (setAffinities_refuses (setAffinities (create "main" 1 : MainWindowBase Unit) ["a"])
    ["b", ""] (by decide)).1

/-! ### uniqueName and options -/

/-- Claim C7: for a constructor name `n` that is not empty, `uniqueName()` is `n` after
construction and after every sequence of calls; and `setUniqueName` leaves the name as it
is, emits no `uniqueNameChanged` and registers nothing (it does nothing at all or only
warns) whenever a name is already set or the new name is empty. -/
theorem uniqueName_is_constructor_name (env : Externals L) (n : String) (options : Nat)
    (hn : n ≠ "") :
    (create n options : MainWindowBase L).uniqueName = n ∧
    (∀ ops : List (Op L), (run env (create n options) ops).uniqueName = n) ∧
    (∀ (s : MainWindowBase L) (m : String), s.name ≠ "" ∨ m = "" →
      (setUniqueName s m).uniqueName = s.uniqueName ∧
      (setUniqueName s m = s ∨ setUniqueName s m = s.emit .qWarning) ∧
      (setUniqueName s m).emitted.count .uniqueNameChanged
        = s.emitted.count .uniqueNameChanged ∧
      (setUniqueName s m).emitted.count .registerMainWindow
        = s.emitted.count .registerMainWindow) := by
  have hc : (create n options : MainWindowBase L).name = n := by
    simp [create, setUniqueName, initPrivate, hn]
  refine ⟨hc, fun ops => ?_, fun s m h => ?_⟩
  · show (run env (create n options) ops).name = n
    rw [run_name env ops _ (by rw [hc]; exact hn), hc]
  · simp only [setUniqueName, uniqueName]
    by_cases hm : m = ""
    · simp [hm]
    · have hs : s.name ≠ "" := h.resolve_right hm
      simp [hm, hs]

/-- Claim C7 at a concrete input: a window constructed as `"main"` is still called
`"main"` after `setUniqueName("other")`, `setAffinities(["a"])` and `setUniqueName("")`. -/
theorem uniqueName_is_constructor_name_witness :
    (create "main" 1 : MainWindowBase Unit).uniqueName = "main" ∧
    (run Externals.sample (create "main" 1)
      [.setUniqueName "other", .setAffinities ["a"], .setUniqueName ""]).uniqueName = "main" :=
  ⟨(uniqueName_is_constructor_name Externals.sample "main" 1 (by decide)).1,
   (uniqueName_is_constructor_name Externals.sample "main" 1 (by decide)).2.1 _⟩

/-- Claim C8: `options()` is the value passed to the constructor after every sequence of
calls, and no single call (`setAffinities`, `setUniqueName`, `addDockWidget`,
`addDockWidgetAsTab`, the layout calls, `deserialize` of any record) changes it in any
state. -/
theorem options_is_constructor_options (env : Externals L) (n : String) (options : Nat) :
    (∀ ops : List (Op L), (run env (create n options) ops).options = options) ∧
    (∀ (s : MainWindowBase L) (op : Op L), (step env s op).options = s.options) ∧
    (∀ (s : MainWindowBase L) (mw : LayoutSaver.MainWindow L),
      (deserialize env s mw).2.options = s.options) := by
  refine ⟨fun ops => ?_, fun s op => step_m_options env s op, fun s mw => ?_⟩
  · show (run env (create n options) ops).m_options = options
    rw [run_m_options, create_m_options]
  · exact step_m_options env s (.deserialize mw)

/-! ### Docking -/

/-- Claim C9: on a main window constructed with `options` and then used in any way,
`addDockWidgetAsTab` adds the dock widget to the central frame exactly when the window's
affinities match the dock widget's, the dock widget is dockable, and `options` has
`MainWindowOption_HasCentralFrame`; in every other case the drop area, central frame
included, receives no call. -/
theorem addDockWidgetAsTab_iff (env : Externals L) (n : String) (options : Nat)
    (ops : List (Op L)) (widget : DockWidgetBase) :
    ((addDockWidgetAsTab env (run env (create n options) ops) widget).dropAreaCalls
        = (run env (create n options) ops).dropAreaCalls ++ [.centralFrameAddWidget widget]
      ↔ (env.affinitiesMatch (run env (create n options) ops).affinities widget.affinities
            = true ∧
          flagsAnd widget.options env.Option_NotDockable = false ∧
          flagsAnd options env.MainWindowOption_HasCentralFrame = true)) ∧
    (¬ (env.affinitiesMatch (run env (create n options) ops).affinities widget.affinities
            = true ∧
          flagsAnd widget.options env.Option_NotDockable = false ∧
          flagsAnd options env.MainWindowOption_HasCentralFrame = true) →
      (addDockWidgetAsTab env (run env (create n options) ops) widget).dropAreaCalls
        = (run env (create n options) ops).dropAreaCalls) := by
  rw [addDockWidgetAsTab_dropAreaCalls, run_m_options, create_m_options]
  constructor
  · split_ifs with h
    · simp [h]
    · simp [h]
  · intro h
    rw [if_neg h]

/-- Claim C9 at a concrete input: a fresh main window with a central frame takes a dockable
widget without affinities into the central frame. -/
theorem addDockWidgetAsTab_iff_witness :
    (addDockWidgetAsTab Externals.sample (run Externals.sample (create "main" 1) [])
        ⟨7, 0, []⟩).dropAreaCalls
      = (run Externals.sample (create "main" 1) []).dropAreaCalls
          ++ [.centralFrameAddWidget ⟨7, 0, []⟩] :=
  (addDockWidgetAsTab_iff Externals.sample "main" 1 [] ⟨7, 0, []⟩).1.2 (by decide)

/-- Claim C10: for a dock widget with `Option_NotDockable`, `addDockWidget` only warns: the
drop area receives no call; for every other dock widget the drop area receives exactly
one more call, `addDockWidget` with the same dock widget, location, relativeTo and
option, and nothing else changes. -/
theorem addDockWidget_forwards (env : Externals L) (s : MainWindowBase L)
    (dw : DockWidgetBase) (location : Location) (relativeTo : Option DockWidgetBase)
    (option : AddingOption) :
    (flagsAnd dw.options env.Option_NotDockable = true →
      addDockWidget env s dw location relativeTo option = s.emit .qWarning ∧
      (addDockWidget env s dw location relativeTo option).dropAreaCalls = s.dropAreaCalls) ∧
    (flagsAnd dw.options env.Option_NotDockable = false →
      addDockWidget env s dw location relativeTo option
        = s.callDropArea (.addDockWidget dw location relativeTo option) ∧
      (addDockWidget env s dw location relativeTo option).dropAreaCalls
        = s.dropAreaCalls ++ [.addDockWidget dw location relativeTo option]) := by
  constructor <;> intro h <;> simp [addDockWidget, h]

/-- Claim C10 at a concrete input: a widget with the not-dockable bit (options 3) is
refused, and the drop area keeps the calls it had. -/
theorem addDockWidget_forwards_witness :
    (addDockWidget Externals.sample (create "main" 1) ⟨7, 3, []⟩ 1 none 0).dropAreaCalls
      = (create "main" 1 : MainWindowBase Unit).dropAreaCalls :=
  ((addDockWidget_forwards Externals.sample (create "main" 1) ⟨7, 3, []⟩ 1 none 0).1
    (by decide)).2

end MainWindowBase

end KDDockWidgets

namespace KDDockWidgets

namespace MainWindowBase

variable {L : Type}

/-! ### serialize and deserialize -/

/-- Claim C11: in every state of a main window the record made by `serialize()` carries
`options()`, `uniqueName()` and `affinities()`; `deserialize()` of that record passes the
options check and the affinity comparison (nothing is warned about, the affinities stay),
hands the serialized layout to the drop area as its only effect, and returns what the
drop area's `deserialize` returns for that layout. -/
theorem serialize_deserialize (env : Externals L) (info : WidgetInfo) (s : MainWindowBase L) :
    (serialize env info s).options = s.options ∧
    (serialize env info s).uniqueName = s.uniqueName ∧
    (serialize env info s).affinities = s.affinities ∧
    (serialize env info s).multiSplitterLayout = env.dropAreaSerialize s.dropAreaCalls ∧
    (deserialize env s (serialize env info s)).1
      = env.dropAreaDeserialize s.dropAreaCalls (env.dropAreaSerialize s.dropAreaCalls) ∧
    (deserialize env s (serialize env info s)).2
      = s.callDropArea (.deserialize (env.dropAreaSerialize s.dropAreaCalls)) ∧
    (deserialize env s (serialize env info s)).2.affinities = s.affinities ∧
    (deserialize env s (serialize env info s)).2.emitted = s.emitted := by
  have h : deserialize env s (serialize env info s)
      = (env.dropAreaDeserialize s.dropAreaCalls (env.dropAreaSerialize s.dropAreaCalls),
         s.callDropArea (.deserialize (env.dropAreaSerialize s.dropAreaCalls))) := by
    simp [deserialize, serialize]
  rw [h]
  exact ⟨rfl, rfl, rfl, rfl, rfl, rfl, rfl, rfl⟩

/-- Claim C11 at a concrete input: a window named `"main"` with affinities `["a"]` is
restored from its own record with the drop area's answer and its affinities kept. -/
theorem serialize_deserialize_witness :
    (deserialize Externals.sample (setAffinities (create "main" 1) ["a"])
      (serialize Externals.sample ⟨⟨0, 0, 800, 600⟩, true, 0, ⟨1920, 1080⟩⟩
        (setAffinities (create "main" 1) ["a"]))).1 = true ∧
    (deserialize Externals.sample (setAffinities (create "main" 1) ["a"])
      (serialize Externals.sample ⟨⟨0, 0, 800, 600⟩, true, 0, ⟨1920, 1080⟩⟩
        (setAffinities (create "main" 1) ["a"]))).2.affinities = ["a"] :=
  ⟨(serialize_deserialize Externals.sample ⟨⟨0, 0, 800, 600⟩, true, 0, ⟨1920, 1080⟩⟩
      (setAffinities (create "main" 1) ["a"])).2.2.2.2.1,
   (serialize_deserialize Externals.sample ⟨⟨0, 0, 800, 600⟩, true, 0, ⟨1920, 1080⟩⟩
      (setAffinities (create "main" 1) ["a"])).2.2.2.2.2.2.1⟩

end MainWindowBase

namespace FocusScope

/-! ### The focus-tracking step -/

/-- `setIsFocused` always returns; what it does to each member and to the emitted
signals. -/
theorem setIsFocused_eq (s : FocusScope) (is : Bool) :
    setIsFocused s is =
      some { s with
        m_isFocused := is
        emitted := s.emitted ++
          (if is ≠ s.m_isFocused ∧ s.m_inCtor = false then [.isFocusedChanged] else []) } := by
  unfold setIsFocused emitSignal
  cases s with
  | mk t f c l e =>
    cases is <;> cases f <;> cases c <;> simp

/-- One step of focus tracking on every input but one: the step the constructor runs on
a widget that is in the scope, is not a `TitleBar` and is not yet `focusedWidget()`. Every
other step returns. When the focus object is null or not a widget, the scope is left
exactly as it is (no member changes, no signal). When it is a widget `w`: afterwards
`isFocused()` is `isInFocusScope(w)`; `focusedWidget()` is `w` if `w` is in the scope and
is not a `TitleBar`, and is what it was otherwise; `focusedWidgetChanged` is emitted once
if `focusedWidget()` changed and not at all otherwise, then `isFocusedChanged` once if
`isFocused()` changed and the constructor is over and not at all otherwise; no other
signal is emitted. -/
theorem onFocusObjectChanged_step (s : FocusScope) (obj : Option QObject)
    (h : s.m_inCtor = false ∨
      ∀ w : WidgetType, qobject_cast_WidgetType obj = some w →
        ¬ (isInFocusScope s w = true ∧ w.isTitleBar = false ∧ s.focusedWidget ≠ some w.id)) :
    ∃ s' : FocusScope, onFocusObjectChanged s obj = some s' ∧
      (qobject_cast_WidgetType obj = none → s' = s) ∧
      (∀ w : WidgetType, qobject_cast_WidgetType obj = some w →
        s'.isFocused = isInFocusScope s w ∧
        s'.focusedWidget
          = (if isInFocusScope s w = true ∧ w.isTitleBar = false then some w.id
             else s.focusedWidget) ∧
        s'.emitted
          = s.emitted
            ++ (if s'.focusedWidget ≠ s.focusedWidget then [.focusedWidgetChanged] else [])
            ++ (if s'.isFocused ≠ s.isFocused ∧ s.m_inCtor = false
                then [.isFocusedChanged] else [])) := by
  cases hc : qobject_cast_WidgetType obj with
  | none =>
    refine ⟨s, by simp [onFocusObjectChanged, hc], fun _ => rfl, fun w hw => ?_⟩
    exact absurd hw (by simp)
  | some w =>
    have h' : s.m_inCtor = false ∨
        ¬ (isInFocusScope s w = true ∧ w.isTitleBar = false ∧ s.focusedWidget ≠ some w.id) :=
      h.imp id (fun h2 => h2 w hc)
    clear h
    suffices H : ∃ s' : FocusScope, onFocusObjectChanged s obj = some s' ∧
        s'.isFocused = isInFocusScope s w ∧
        s'.focusedWidget
          = (if isInFocusScope s w = true ∧ w.isTitleBar = false then some w.id
             else s.focusedWidget) ∧
        s'.emitted
          = s.emitted
            ++ (if s'.focusedWidget ≠ s.focusedWidget then [.focusedWidgetChanged] else [])
            ++ (if s'.isFocused ≠ s.isFocused ∧ s.m_inCtor = false
                then [.isFocusedChanged] else []) by
      obtain ⟨s', h1, h2⟩ := H
      refine ⟨s', h1, fun hn => absurd hn (by simp), fun w' hw' => ?_⟩
      cases hw'
      exact h2
    simp only [onFocusObjectChanged, hc, emitSignal, setIsFocused_eq, isFocused, focusedWidget]
      at h' ⊢
    generalize isInFocusScope s w = is at h' ⊢
    cases s with
    | mk t f c l e =>
      cases w with
      | mk i tb ps =>
        have hl' : some i = l ↔ l = some i := eq_comm
        by_cases hl : l = some i <;> cases is <;> cases tb <;> cases c <;> cases f <;>
          simp_all

/-- The step at a concrete input: in a scope around widget 1 whose constructor is over,
focus on widget 6 (a child of 1, not a title bar) makes the scope focused, remembers 6 and
emits `focusedWidgetChanged`, then `isFocusedChanged`. -/
theorem onFocusObjectChanged_step_witness :
    ∃ s' : FocusScope,
      onFocusObjectChanged ⟨1, false, false, none, []⟩ (some (.widget ⟨6, false, [1]⟩))
        = some s' ∧
      s'.isFocused = true ∧ s'.focusedWidget = some 6 ∧
      s'.emitted = [.focusedWidgetChanged, .isFocusedChanged] :=
  match onFocusObjectChanged_step ⟨1, false, false, none, []⟩
      (some (.widget ⟨6, false, [1]⟩)) (Or.inl rfl) with
  | ⟨s', hs, _, hw⟩ =>
    ⟨s', hs, (hw ⟨6, false, [1]⟩ rfl).1, (hw ⟨6, false, [1]⟩ rfl).2.1, by
      have h3 := (hw ⟨6, false, [1]⟩ rfl).2.2
      have h1 : s'.isFocused = true := (hw ⟨6, false, [1]⟩ rfl).1
      have h2 : s'.focusedWidget = some 6 := (hw ⟨6, false, [1]⟩ rfl).2.1
      rw [h3, h1, h2]
      decide⟩

/-- Claim C12 at the input where the code departs from it: a focus scope is constructed
for widget 1 while that widget (in the scope, not a `TitleBar`) is the focus object. The
claim has `isFocused()` true and `focusedWidget()` that widget afterwards. The code stores
the widget and then calls `focusedWidgetChanged` while the constructor is still running,
without the test of `m_inCtor` that `setIsFocused` makes before `isFocusedChanged`; the
call does not return, so neither the step nor the constructor has a state afterwards. -/
theorem constructor_step_does_not_return :
    onFocusObjectChanged (initPrivate 1) (some (.widget ⟨1, false, []⟩)) = none ∧
    create 1 (some (.widget ⟨1, false, []⟩)) = none := by
  decide

end FocusScope

end KDDockWidgets
